import Mathlib

/-!
Shallow embedding of the matrix binding layer of ruby-opencv
(src/ext/opencv/mat.cpp and src/ext/opencv/mat_imgproc.cpp).

Modelling conventions:
* A `cv::Mat` is modelled as a header (`rows`, `cols`, depth code, channel
  count) over a flat, row-major, continuous cell carrier `data : Int → Int`
  (one entry per scalar component, the unit the per-depth pointer arithmetic
  of `rb_aset`/`rb_aref` works in).  Only continuous (non-view) matrices are
  modelled; the region-of-interest constructor branch is outside this file.
* Numeric component values are modelled as integers.  The C double→integer
  narrowing casts of `rb_aset` are modelled as two's-complement wraparound,
  the semantics the repository relies on for integer narrowing; the two
  floating depths store the value unchanged.
* Ruby exceptions become an error value (`CvError`); every binding entry
  point returns `Except CvError _`.
* The bulk numeric kernels (`cv::add`, `cv::absdiff`, `cv::threshold`, ...)
  are the external collaborators the bindings delegate to; they are not part
  of the repository and are modelled separately (marked `Modelled from the
  spec:`) or passed as parameters where only the wrapper's dispatch matters.
-/

/-- Depth tags of the seven supported element kinds (`CV_8U` .. `CV_64F`). -/
inductive Depth : Type
  | u8 | i8 | u16 | i16 | i32 | f32 | f64
deriving DecidableEq, Repr

/-- Decoding of the numeric depth code used by the `switch (selfptr->depth())`
dispatch in `rb_aref`/`rb_aset`: `CV_8U=0, CV_8S=1, CV_16U=2, CV_16S=3,
CV_32S=4, CV_32F=5, CV_64F=6`; every other code falls to the `default:`
branch. -/
def decodeDepth : Nat → Option Depth
  | 0 => some .u8
  | 1 => some .i8
  | 2 => some .u16
  | 3 => some .i16
  | 4 => some .i32
  | 5 => some .f32
  | 6 => some .f64
  | _ => none

/-- C-style narrowing cast used by the per-depth write branches of `rb_aset`
(`(uchar)((*scalar)[i])` and friends): two's-complement wraparound for the
integer depths, identity for the floating depths (values are modelled as
integers). -/
def Depth.narrow : Depth → Int → Int
  | .u8, v => v.emod 256
  | .i8, v => (v + 128).emod 256 - 128
  | .u16, v => v.emod 65536
  | .i16, v => (v + 32768).emod 65536 - 32768
  | .i32, v => (v + 2147483648).emod 4294967296 - 2147483648
  | .f32, v => v
  | .f64, v => v

/-- Saturating cast applied by the arithmetic kernels (`cv::saturate_cast`):
clamping for the 8/16-bit depths, wraparound for `CV_32S` (OpenCV documents
that saturation is not applied at that depth), identity for the floating
depths. -/
def Depth.saturate : Depth → Int → Int
  | .u8, v => max 0 (min 255 v)
  | .i8, v => max (-128) (min 127 v)
  | .u16, v => max 0 (min 65535 v)
  | .i16, v => max (-32768) (min 32767 v)
  | .i32, v => (v + 2147483648).emod 4294967296 - 2147483648
  | .f32, v => v
  | .f64, v => v

/-- `cv::Scalar`: a 4-component tuple of numeric values (doubles in C,
integers in the model).  `Scalar(x)` fills the remaining components with 0. -/
structure Scalar : Type where
  v0 : Int
  v1 : Int
  v2 : Int
  v3 : Int
deriving DecidableEq, Repr

/-- Component access `(*scalar)[i]`.  The binding only indexes components
`0..channels-1` with `channels ≤ 4`; larger indices would be an out-of-bounds
read in the C code and are outside the modelled contract. -/
def Scalar.get (s : Scalar) : Nat → Int
  | 0 => s.v0
  | 1 => s.v1
  | 2 => s.v2
  | _ => s.v3

/-- The one-argument `cv::Scalar(x)` constructor: `(x, 0, 0, 0)`, used when a
plain number operand is coerced by `NUM2DBL` and handed to a scalar kernel. -/
def Scalar.ofNum (x : Int) : Scalar := ⟨x, 0, 0, 0⟩

/-- The claim's "v converted by C-style narrowing to the matrix's depth":
the tuple with every component narrowed. -/
def narrowScalar (d : Depth) (s : Scalar) : Scalar :=
  ⟨d.narrow s.v0, d.narrow s.v1, d.narrow s.v2, d.narrow s.v3⟩

/-- Errors a binding entry point can surface, one constructor per Ruby
exception class the source raises (`Error::raise` re-raises a caught
`cv::Exception`). -/
inductive CvError : Type
  | cvException (msg : String)
  | typeError (msg : String)
  | standardError (msg : String)
  | noMemError (msg : String)
deriving DecidableEq, Repr

/-- A continuous 2-D `cv::Mat` header over a flat cell carrier.  Cell
`(r, c, k)` (row, column, channel) lives at flat offset
`(r * cols + c) * channels + k`; offsets outside `[0, rows*cols*channels)`
correspond to memory outside the buffer (the C code never touches them on
the in-contract paths this file proves about). -/
structure Mat : Type where
  rows : Nat
  cols : Nat
  depthCode : Nat
  channels : Nat
  data : Int → Int

/-- `cv::Mat::empty()` for a constructed matrix: no elements. -/
def Mat.isEmpty (m : Mat) : Bool := m.rows == 0 || m.cols == 0

/-- Contents of a freshly allocated, uninitialized buffer.  The C contents
are indeterminate; the model fixes them arbitrarily and no theorem of this
file depends on the choice. -/
def uninitData : Int → Int := fun _ => 0

/-- Flat offset of element `(i, j)`: the address computation shared by
`rb_aset` (`row * step + col * channels` in cell units) and by
`cv::Mat::at` as invoked from `rb_aref` (`idx[0]*step[0] + idx[1]*step[1]`
with `step[1] = elemSize`). -/
def cellBase (m : Mat) (i j : Int) : Int :=
  i * ((m.cols * m.channels : Nat) : Int) + j * ((m.channels : Nat) : Int)

/-- Channel index a flat cell offset falls in (continuous layout). -/
def chanOf (m : Mat) (off : Int) : Nat := (off.emod (m.channels : Int)).toNat

/-- Pointwise update of the cell carrier: one C store `p[i] = v`. -/
def writeCell (f : Int → Int) (off : Int) (v : Int) : Int → Int :=
  fun o => if o = off then v else f o

/-- The per-element write loop of `rb_aset`:
`for (i = 0; i < channels; i++) p[i] = (T)((*scalar)[i]);`, with the
depth's narrowing cast applied to each stored component. -/
def setChannels (f : Int → Int) (base : Int) (d : Depth) (s : Scalar) (n : Nat) :
    Int → Int :=
  (List.range n).foldl (fun g k => writeCell g (base + Int.ofNat k) (d.narrow (s.get k))) f

/-- `rb_aset` (`[]=`): dispatches on the depth tag — the `default:` branch
raises `Invalid depth` for a tag that is none of the seven kinds — then
writes the `channels` narrowed tuple components at the element's offset and
returns the (updated) receiver.  The C code performs no bounds check on this
path (`cv::Mat::ptr` only debug-asserts), which the total carrier mirrors. -/
def rb_aset (m : Mat) (row col : Int) (s : Scalar) : Except CvError Mat :=
  match decodeDepth m.depthCode with
  | none => .error (.standardError "Invalid depth")
  | some d => .ok { m with data := setChannels m.data (cellBase m row col) d s m.channels }

/-- `rb_aref` (`[]`, 2-index path): dispatches on the depth tag — the
`default:` branch raises `Invalid depth` — and otherwise builds a
`cv::Scalar` from the `cv::Scalar_<T>` of the matching native type read at
the element's address.  `Scalar_<T>` has four components, so the read takes
four consecutive cells starting at the element offset, whatever the channel
count; components are widened to double (identity here). -/
def rb_aref (m : Mat) (i j : Int) : Except CvError Scalar :=
  match decodeDepth m.depthCode with
  | none => .error (.standardError "Invalid depth")
  | some _ =>
    .ok ⟨m.data (cellBase m i j), m.data (cellBase m i j + 1),
         m.data (cellBase m i j + 2), m.data (cellBase m i j + 3)⟩

/-- Construction of a fresh `cv::Mat(rows, cols, type)`: negative dimensions
make the constructor throw a `cv::Exception`; otherwise a header is built
whose depth is `type & 7` and whose channel count is `((type >> 3) & 511) + 1`
(the `CV_MAT_DEPTH`/`CV_MAT_CN` decoding of a type code), over a freshly
allocated uninitialized buffer.  `Modelled from the spec:` the constructor
itself belongs to the external array library; only its header/flag decoding
and failure condition are reproduced here, as the binding in
`rb_initialize_numeric` depends on them. -/
def mkMatCv (rows cols : Int) (t : Int) : Except CvError Mat :=
  if rows < 0 ∨ cols < 0 then .error (.cvException "Mat size must be nonnegative")
  else
    .ok { rows := rows.toNat, cols := cols.toNat,
          depthCode := (t.emod 8).toNat,
          channels := ((t.fdiv 8).emod 512).toNat + 1,
          data := uninitData }

/-- The default element type of the two-argument construction form:
`CV_8UC1` (depth `CV_8U = 0`, one channel; type code 0). -/
def CV_8UC1 : Int := 0

/-- `rb_initialize_numeric`, numeric form (`Mat.new(rows, cols, type = nil)`): builds
`cv::Mat(rows, cols, type)` with `CV_8UC1` substituted for an omitted type,
then — before storing the handle — checks `dataptr->empty()` and raises
`NoMemError` (`Failed to create matrix`) when the result has no elements.
The region-of-interest form (first argument a matrix) is not modelled. -/
def rb_initialize_numeric (v1 v2 : Int) (type : Option Int) : Except CvError Mat :=
  match mkMatCv v1 v2 (match type with | none => CV_8UC1 | some t => t) with
  | .error e => .error e
  | .ok m =>
    if m.isEmpty then .error (.noMemError "Failed to create matrix")
    else .ok m

/-- `rb_zeros` (`Mat.zeros(rows, cols, type)`): `cv::Mat::zeros` — the same
header construction with a zero-filled buffer; the binding performs no
emptiness check. -/
def rb_zeros (rows cols : Int) (t : Int) : Except CvError Mat :=
  match mkMatCv rows cols t with
  | .error e => .error e
  | .ok m => .ok { m with data := fun _ => 0 }

/-- A Ruby operand as the binding's dispatch sees it: a `Cv::Mat`, a
`Cv::Scalar`, a number, or any other object (for which `NUM2DBL` raises
`TypeError`). -/
inductive RValue : Type
  | mat (m : Mat)
  | scalar (s : Scalar)
  | num (x : Int)
  | otherObject

/-- `NUM2DBL`: numeric coercion of a Ruby object to a double, raising
`TypeError` for anything that is not a number. -/
def num2dbl : RValue → Except CvError Int
  | .num x => .ok x
  | _ => .error (.typeError "no implicit conversion into Float")

/-- Shape-and-type agreement the elementwise matrix-matrix kernels demand. -/
def Mat.sameShapeType (a b : Mat) : Prop :=
  a.rows = b.rows ∧ a.cols = b.cols ∧ a.depthCode = b.depthCode ∧ a.channels = b.channels

instance (a b : Mat) : Decidable (a.sameShapeType b) := by
  unfold Mat.sameShapeType; infer_instance

/-- Modelled from the spec: the external elementwise addition kernel
(`cv::Mat + cv::Mat`): same size and type demanded, per-cell saturated sum. -/
def cvAddMatMat (a b : Mat) : Except CvError Mat :=
  if a.sameShapeType b then
    match decodeDepth a.depthCode with
    | some d => .ok { a with data := fun off => d.saturate (a.data off + b.data off) }
    | none => .error (.cvException "unsupported depth")
  else .error (.cvException "sizes or types of input arguments do not match")

/-- Modelled from the spec: the external matrix-plus-scalar kernel
(`cv::Mat + cv::Scalar`): each cell gets its channel's tuple component
added, saturated to the depth. -/
def cvAddMatScalar (a : Mat) (s : Scalar) : Except CvError Mat :=
  match decodeDepth a.depthCode with
  | some d => .ok { a with data := fun off => d.saturate (a.data off + s.get (chanOf a off)) }
  | none => .error (.cvException "unsupported depth")

/-- Modelled from the spec: the external elementwise subtraction kernel
(`cv::Mat - cv::Mat`). -/
def cvSubMatMat (a b : Mat) : Except CvError Mat :=
  if a.sameShapeType b then
    match decodeDepth a.depthCode with
    | some d => .ok { a with data := fun off => d.saturate (a.data off - b.data off) }
    | none => .error (.cvException "unsupported depth")
  else .error (.cvException "sizes or types of input arguments do not match")

/-- Modelled from the spec: the external matrix-minus-scalar kernel
(`cv::Mat - cv::Scalar`). -/
def cvSubMatScalar (a : Mat) (s : Scalar) : Except CvError Mat :=
  match decodeDepth a.depthCode with
  | some d => .ok { a with data := fun off => d.saturate (a.data off - s.get (chanOf a off)) }
  | none => .error (.cvException "unsupported depth")

/-- Modelled from the spec: the external matrix-product kernel behind
`cv::Mat * cv::Mat` (generalized matrix multiplication): defined for
single-channel floating-point operands with matching inner dimension. -/
def cvMatMulMat (a b : Mat) : Except CvError Mat :=
  if a.channels = 1 ∧ b.channels = 1 ∧ a.depthCode = b.depthCode ∧
     (a.depthCode = 5 ∨ a.depthCode = 6) ∧ a.cols = b.rows then
    .ok { rows := a.rows, cols := b.cols, depthCode := a.depthCode, channels := 1,
          data := fun off =>
            let i := off.fdiv (b.cols : Int)
            let j := off.emod (b.cols : Int)
            (List.range a.cols).foldl
              (fun acc k =>
                acc + a.data (i * (a.cols : Int) + (k : Nat)) *
                      b.data ((k : Nat) * (b.cols : Int) + j)) 0 }
  else .error (.cvException "gemm demands floating-point matrices of matching size")

/-- Modelled from the spec: the external scale kernel behind
`cv::Mat * double`: each cell multiplied by the factor and saturated. -/
def cvMatScale (a : Mat) (x : Int) : Except CvError Mat :=
  match decodeDepth a.depthCode with
  | some d => .ok { a with data := fun off => d.saturate (a.data off * x) }
  | none => .error (.cvException "unsupported depth")

/-- Division with rounding to nearest and the divide-by-zero-gives-zero
convention of the external division kernel. -/
def cvDivRound (a b : Int) : Int :=
  if b = 0 then 0 else Int.fdiv (2 * a + b) (2 * b)

/-- Modelled from the spec: the external elementwise division kernel
(`cv::Mat / cv::Mat`). -/
def cvMatDivMat (a b : Mat) : Except CvError Mat :=
  if a.sameShapeType b then
    match decodeDepth a.depthCode with
    | some d => .ok { a with data := fun off => d.saturate (cvDivRound (a.data off) (b.data off)) }
    | none => .error (.cvException "unsupported depth")
  else .error (.cvException "sizes or types of input arguments do not match")

/-- Modelled from the spec: the external kernel behind `cv::Mat / double`. -/
def cvMatDivScale (a : Mat) (x : Int) : Except CvError Mat :=
  match decodeDepth a.depthCode with
  | some d => .ok { a with data := fun off => d.saturate (cvDivRound (a.data off) x) }
  | none => .error (.cvException "unsupported depth")

/-- Modelled from the spec: the external elementwise absolute-difference
kernel (`cv::absdiff(mat, mat, dst)`). -/
def cvAbsdiffMatMat (a b : Mat) : Except CvError Mat :=
  if a.sameShapeType b then
    match decodeDepth a.depthCode with
    | some d => .ok { a with data := fun off => d.saturate (a.data off - b.data off).natAbs }
    | none => .error (.cvException "unsupported depth")
  else .error (.cvException "sizes or types of input arguments do not match")

/-- Modelled from the spec: the external matrix-scalar absolute-difference
kernel (`cv::absdiff(mat, scalar, dst)`). -/
def cvAbsdiffMatScalar (a : Mat) (s : Scalar) : Except CvError Mat :=
  match decodeDepth a.depthCode with
  | some d =>
    .ok { a with data := fun off => d.saturate (a.data off - s.get (chanOf a off)).natAbs }
  | none => .error (.cvException "unsupported depth")

/-- `rb_add` (`+`): three-way dispatch on the right operand — matrix operand
to the matrix-matrix kernel, scalar operand to the matrix-scalar kernel,
anything else through `NUM2DBL` (which raises `TypeError` for non-numbers)
and then the scalar kernel at `Scalar(x)`. -/
def rb_add (self : Mat) (other : RValue) : Except CvError Mat :=
  match other with
  | .mat m => cvAddMatMat self m
  | .scalar s => cvAddMatScalar self s
  | v =>
    match num2dbl v with
    | .error e => .error e
    | .ok x => cvAddMatScalar self (Scalar.ofNum x)

/-- `rb_sub` (`-`): the same three-way dispatch as `rb_add`. -/
def rb_sub (self : Mat) (other : RValue) : Except CvError Mat :=
  match other with
  | .mat m => cvSubMatMat self m
  | .scalar s => cvSubMatScalar self s
  | v =>
    match num2dbl v with
    | .error e => .error e
    | .ok x => cvSubMatScalar self (Scalar.ofNum x)

/-- `rb_mul` (`*`): only a two-way dispatch — a matrix operand goes to the
matrix-product kernel and every other operand (a `Cv::Scalar` included)
straight through `NUM2DBL`, so a scalar tuple raises `TypeError`. -/
def rb_mul (self : Mat) (other : RValue) : Except CvError Mat :=
  match other with
  | .mat m => cvMatMulMat self m
  | v =>
    match num2dbl v with
    | .error e => .error e
    | .ok x => cvMatScale self x

/-- `rb_div` (`/`): the same two-way dispatch as `rb_mul`; a `Cv::Scalar`
operand raises `TypeError` through `NUM2DBL`. -/
def rb_div (self : Mat) (other : RValue) : Except CvError Mat :=
  match other with
  | .mat m => cvMatDivMat self m
  | v =>
    match num2dbl v with
    | .error e => .error e
    | .ok x => cvMatDivScale self x

/-- `rb_absdiff`: matrix operand to `cv::absdiff(mat, mat)`, scalar operand
to `cv::absdiff(mat, scalar)`; any other operand releases the allocated
output and raises `TypeError` (no numeric coercion on this entry point). -/
def rb_absdiff (self : Mat) (other : RValue) : Except CvError Mat :=
  match other with
  | .mat m => cvAbsdiffMatMat self m
  | .scalar s => cvAbsdiffMatScalar self s
  | _ => .error (.typeError "no implicit conversion into Cv::Mat or Cv::Scalar")

/-- Modelled from the spec: one output plane of the external channel-split
kernel (`cv::split`): plane `i` is single-channel, same geometry, and its
cell `(r, c)` is the source's channel-`i` component of element `(r, c)`. -/
def cvSplitPlane (m : Mat) (i : Nat) : Mat :=
  { rows := m.rows, cols := m.cols, depthCode := m.depthCode, channels := 1,
    data := fun off => m.data (off * (m.channels : Int) + (i : Int)) }

/-- `rb_split`: delegates to `cv::split` (which rejects an unsupported depth
with a `cv::Exception`, re-raised) and then builds the result array with one
entry per channel: `for (i = 0; i < selfptr->channels(); i++)`. -/
def rb_split (m : Mat) : Except CvError (List Mat) :=
  match decodeDepth m.depthCode with
  | none => .error (.cvException "unsupported depth")
  | some _ => .ok ((List.range m.channels).map (cvSplitPlane m))

/-- Result shape of `rb_threshold`: the output matrix alone, or the pair of
the output matrix and the computed optimal threshold. -/
inductive ThreshReturn : Type
  | single (m : Mat)
  | pair (m : Mat) (t : Int)

/-- `THRESH_OTSU` flag bit. -/
def THRESH_OTSU : Int := 8

/-- `THRESH_TRIANGLE` flag bit. -/
def THRESH_TRIANGLE : Int := 16

/-- `rb_threshold`: calls the external `cv::threshold` kernel (passed as a
parameter: it returns the destination array and the computed optimal
threshold, or throws), re-raises a kernel failure, and otherwise returns
`[dst, optimal_threshold]` when the type argument has the `THRESH_OTSU` or
`THRESH_TRIANGLE` bit set and `dst` alone otherwise. -/
def rb_threshold (kernel : Mat → Int → Int → Int → Except CvError (Mat × Int))
    (self : Mat) (threshold maxValue thresholdType : Int) : Except CvError ThreshReturn :=
  match kernel self threshold maxValue thresholdType with
  | .error e => .error e
  | .ok (dst, optimal) =>
    if thresholdType.land THRESH_OTSU ≠ 0 ∨ thresholdType.land THRESH_TRIANGLE ≠ 0 then
      .ok (.pair dst optimal)
    else
      .ok (.single dst)

/-- `rb_imdecode_internal`: masks each buffer entry to a byte, hands the
bytes to the external codec collaborator (`cv::imdecode`, passed as a
parameter: it fills the destination matrix or throws), re-raises a thrown
`cv::Exception`, and wraps whatever matrix the codec produced — the binding
performs no emptiness check on the decoded matrix. -/
def rb_imdecode_internal (kernel : List Int → Int → Except CvError Mat)
    (buf : List Int) (flags : Int) : Except CvError Mat :=
  match kernel (buf.map (fun b => b.emod 256)) flags with
  | .error e => .error e
  | .ok m => .ok m

/-- Modelled from the spec: the behaviour of the codec collaborator
(`cv::imdecode`) on a byte stream it cannot recognize as an image — it
produces an empty matrix rather than throwing. -/
def cvImdecodeUnrecognized : List Int → Int → Except CvError Mat :=
  fun _ _ => .ok { rows := 0, cols := 0, depthCode := 0, channels := 1, data := uninitData }

/-- `rb_imread_internal`: the file-loading sibling of `rb_imdecode_internal`.
Unlike the decode path it checks `tmp.empty()` after the codec call and
raises `Failed to load image` rather than wrapping an empty matrix. -/
def rb_imread_internal (kernel : String → Int → Except CvError Mat)
    (filename : String) (flags : Int) : Except CvError Mat :=
  match kernel filename flags with
  | .error e => .error e
  | .ok m =>
    if m.isEmpty then .error (.standardError "Failed to load image")
    else .ok m

/-- Concrete matrices and tuples the counterexamples and witnesses below
evaluate the bindings at. `exU8Row`: a 1×4 single-channel `CV_8U` matrix all
of whose cells hold 5 (reachable, e.g. through `set_to` or four writes). -/
def exU8Row : Mat := { rows := 1, cols := 4, depthCode := 0, channels := 1, data := fun _ => 5 }

/-- The tuple `Scalar(7)` written in the C1 counterexample. -/
def exTuple : Scalar := ⟨7, 0, 0, 0⟩

/-- A 1×1 three-channel `CV_8U` matrix (split witness). -/
def exRGB : Mat := { rows := 1, cols := 1, depthCode := 0, channels := 3, data := fun _ => 0 }

/-- A 2×2 single-channel matrix carrying the unsupported depth code 9. -/
def exBadDepth : Mat := { rows := 2, cols := 2, depthCode := 9, channels := 1, data := fun _ => 0 }

/-- Value written by the write loop of `rb_aset`: the cell at channel slot
`k < n` holds the narrowed `k`-th tuple component once the loop finishes. -/
theorem setChannels_at (f : Int → Int) (base : Int) (d : Depth) (s : Scalar) :
    ∀ n k, k < n → setChannels f base d s n (base + Int.ofNat k) = d.narrow (s.get k) := by
  intro n
  induction n with
  | zero => exact fun k hk => absurd hk (Nat.not_lt_zero k)
  | succ n ih =>
    intro k hk
    unfold setChannels at ih ⊢
    rw [List.range_succ, List.foldl_append, List.foldl_cons, List.foldl_nil]
    by_cases hkn : k = n
    · subst hkn
      simp [writeCell]
    · have hne : base + Int.ofNat k ≠ base + Int.ofNat n := by
        intro hcontra
        exact hkn (Int.ofNat.inj (add_left_cancel hcontra))
      rw [writeCell, if_neg hne]
      exact ih k (by omega)

/-- C1 (amended): element round-trip, per channel.  For a matrix with a
supported depth, an in-range 2-D index and any tuple `v`, `get` after `set`
at the same index returns, in each of the first `channels` components
(`k < 4`), the `k`-th component of `v` converted by C-style narrowing to the
matrix's depth; in particular a `u8` write of 300 reads back as 44, and a
representable component reads back exactly.  (The components of the returned
4-tuple beyond the channel count are read from the adjacent cells of the
buffer, not taken from `v` — see the counterexample.) -/
theorem C1_roundtrip_per_channel (m : Mat) (d : Depth) (i j : Int) (v : Scalar) (k : Nat)
    (hd : decodeDepth m.depthCode = some d)
    (hi : 0 ≤ i ∧ i < (m.rows : Int)) (hj : 0 ≤ j ∧ j < (m.cols : Int))
    (hk : k < m.channels) (hk4 : k < 4) :
    ∃ m2 s2, rb_aset m i j v = .ok m2 ∧ rb_aref m2 i j = .ok s2 ∧
      s2.get k = d.narrow (v.get k) := by
  refine ⟨{ m with data := setChannels m.data (cellBase m i j) d v m.channels },
          ⟨setChannels m.data (cellBase m i j) d v m.channels (cellBase m i j),
           setChannels m.data (cellBase m i j) d v m.channels (cellBase m i j + 1),
           setChannels m.data (cellBase m i j) d v m.channels (cellBase m i j + 2),
           setChannels m.data (cellBase m i j) d v m.channels (cellBase m i j + 3)⟩,
          ?_, ?_, ?_⟩
  · simp [rb_aset, hd]
  · simp [rb_aref, hd, cellBase]
  · have hat := setChannels_at m.data (cellBase m i j) d v m.channels k hk
    interval_cases k <;>
      simpa [Scalar.get, Int.ofNat] using hat

/-- C1 witness: on a 2×2 single-channel `u8` zero matrix, writing the tuple
`Scalar(300)` at `(0, 0)` and reading it back yields component 44 in channel
0, and `300` narrowed to `u8` is `44 = 300 mod 256`. -/
theorem C1_roundtrip_witness :
    (∃ m2 s2,
        rb_aset { rows := 2, cols := 2, depthCode := 0, channels := 1, data := fun _ => 0 }
            0 0 ⟨300, 0, 0, 0⟩ = .ok m2 ∧
        rb_aref m2 0 0 = .ok s2 ∧
        s2.get 0 = Depth.u8.narrow ((⟨300, 0, 0, 0⟩ : Scalar).get 0)) ∧
    Depth.u8.narrow 300 = 44 :=
  ⟨C1_roundtrip_per_channel
      { rows := 2, cols := 2, depthCode := 0, channels := 1, data := fun _ => 0 }
      .u8 0 0 ⟨300, 0, 0, 0⟩ 0 rfl (by decide) (by decide) (by decide) (by decide),
   by decide⟩

/-- C1 counterexample: the claim's full-tuple round-trip `get(set(m, idx, v),
idx) == narrowed v` fails for a matrix with fewer than 4 channels.  On the
1×4 single-channel `u8` matrix whose cells all hold 5, writing `Scalar(7)` at
`(0, 0)` and reading back gives `(7, 5, 5, 5)` — the last three components
come from the neighbouring cells — while `v` narrowed is `(7, 0, 0, 0)`. -/
theorem C1_full_roundtrip_fails :
    (match rb_aset exU8Row 0 0 exTuple with
     | .ok m2 => rb_aref m2 0 0
     | .error e => .error e) = .ok ⟨7, 5, 5, 5⟩ ∧
    narrowScalar Depth.u8 exTuple ≠ (⟨7, 5, 5, 5⟩ : Scalar) :=
  ⟨rfl, by decide⟩

/-- C2: decoding a byte buffer the codec cannot recognize as an image — the
collaborator then produces an empty matrix without throwing — makes
`rb_imdecode_internal` return that empty matrix handle successfully: the
binding has no emptiness check and raises nothing, contrary to the spec's
`DecodeError`. -/
theorem C2_imdecode_returns_empty_handle :
    (rb_imdecode_internal cvImdecodeUnrecognized [0, 1, 2] 1).map Mat.isEmpty = .ok true := rfl

/-- Contrast for C2 (not a claim theorem): the file-loading sibling
`rb_imread_internal` does check for an empty decode result and raises. -/
theorem imread_rejects_empty_decode (kernel : String → Int → Except CvError Mat)
    (filename : String) (flags : Int) (m : Mat)
    (hk : kernel filename flags = .ok m) (hm : m.isEmpty = true) :
    rb_imread_internal kernel filename flags = .error (.standardError "Failed to load image") := by
  simp [rb_imread_internal, hk, hm]

/-- C3 (amended): for `rows, cols ≥ 0`, the dimensioned constructor succeeds
exactly when both dimensions are positive, and the constructed handle then
satisfies `isEmpty() = false`; with `rows == 0 || cols == 0` the constructor
raises `NoMemError` (`Failed to create matrix`) instead of returning an
empty handle. -/
theorem C3_construct_amended (rows cols t : Int) (hr : 0 ≤ rows) (hc : 0 ≤ cols) :
    (rows = 0 ∨ cols = 0 →
      rb_initialize_numeric rows cols (some t) = .error (.noMemError "Failed to create matrix")) ∧
    (0 < rows → 0 < cols →
      ∃ m, rb_initialize_numeric rows cols (some t) = .ok m ∧ m.isEmpty = false ∧
        m.rows = rows.toNat ∧ m.cols = cols.toNat) := by
  have hneg : ¬(rows < 0 ∨ cols < 0) := by omega
  constructor
  · intro h0
    have hempty : (rows.toNat == 0 || cols.toNat == 0) = true := by
      rcases h0 with h | h <;> subst h <;> simp
    simp [rb_initialize_numeric, mkMatCv, hneg, Mat.isEmpty, hempty]
  · intro hrpos hcpos
    have hempty : (rows.toNat == 0 || cols.toNat == 0) = false := by
      simp only [Bool.or_eq_false_iff, beq_eq_false_iff_ne, ne_eq]
      omega
    refine ⟨{ rows := rows.toNat, cols := cols.toNat,
              depthCode := (t.emod 8).toNat,
              channels := ((t.fdiv 8).emod 512).toNat + 1,
              data := uninitData }, ?_, ?_, rfl, rfl⟩
    · simp [rb_initialize_numeric, mkMatCv, hneg, Mat.isEmpty, hempty]
    · simpa [Mat.isEmpty] using hempty

/-- C3 witness: `Mat.new(2, 3, type 0)` succeeds with a nonempty handle. -/
theorem C3_construct_witness :
    ∃ m, rb_initialize_numeric 2 3 (some 0) = .ok m ∧ m.isEmpty = false ∧
      m.rows = (2 : Int).toNat ∧ m.cols = (3 : Int).toNat :=
  (C3_construct_amended 2 3 0 (by decide) (by decide)).2 (by decide) (by decide)

/-- C3 counterexample: constructing with zero rows and columns does not yield
an empty handle — `rb_initialize_numeric` raises `NoMemError` on the empty result. -/
theorem C3_zero_size_raises :
    rb_initialize_numeric 0 0 (some 0) = .error (.noMemError "Failed to create matrix") := rfl

/-- C4 (amended): operator dispatch as the bindings implement it.  `+` and
`-` follow the three-way rule (matrix operand → matrix-matrix kernel,
scalar-tuple operand → matrix-scalar kernel, otherwise coercion of the
operand to a single double, with `TypeError` for a non-numeric object).
`*` and `/` dispatch only two ways — matrix operand → matrix kernel, every
other operand through numeric coercion — so a scalar-tuple right operand of
`*` or `/` fails with `TypeError` rather than being applied per channel. -/
theorem C4_operator_dispatch_amended (self m : Mat) (s : Scalar) (x : Int) :
    rb_add self (.mat m) = cvAddMatMat self m ∧
    rb_add self (.scalar s) = cvAddMatScalar self s ∧
    rb_add self (.num x) = cvAddMatScalar self (Scalar.ofNum x) ∧
    rb_add self .otherObject = .error (.typeError "no implicit conversion into Float") ∧
    rb_sub self (.mat m) = cvSubMatMat self m ∧
    rb_sub self (.scalar s) = cvSubMatScalar self s ∧
    rb_sub self (.num x) = cvSubMatScalar self (Scalar.ofNum x) ∧
    rb_sub self .otherObject = .error (.typeError "no implicit conversion into Float") ∧
    rb_mul self (.mat m) = cvMatMulMat self m ∧
    rb_mul self (.scalar s) = .error (.typeError "no implicit conversion into Float") ∧
    rb_mul self (.num x) = cvMatScale self x ∧
    rb_mul self .otherObject = .error (.typeError "no implicit conversion into Float") ∧
    rb_div self (.mat m) = cvMatDivMat self m ∧
    rb_div self (.scalar s) = .error (.typeError "no implicit conversion into Float") ∧
    rb_div self (.num x) = cvMatDivScale self x ∧
    rb_div self .otherObject = .error (.typeError "no implicit conversion into Float") :=
  ⟨rfl, rfl, rfl, rfl, rfl, rfl, rfl, rfl, rfl, rfl, rfl, rfl, rfl, rfl, rfl, rfl⟩

/-- C4 counterexample: a scalar-tuple right operand of `*` or `/` is not
dispatched to a matrix-scalar operation — on a concrete matrix and tuple,
both raise `TypeError` through the `NUM2DBL` coercion. -/
theorem C4_mul_div_scalar_tuple_rejected :
    rb_mul exU8Row (.scalar ⟨2, 0, 0, 0⟩) =
      .error (.typeError "no implicit conversion into Float") ∧
    rb_div exU8Row (.scalar ⟨2, 0, 0, 0⟩) =
      .error (.typeError "no implicit conversion into Float") :=
  ⟨rfl, rfl⟩

/-- C5: the concrete scenario.  On the 2×2 single-channel `u8` zero matrix
with element `(0, 0)` set to 5, `m + 3` yields a matrix whose cells are
`8, 3, 3, 3` (row-major), while `m`'s own cells still read `5, 0, 0, 0` and
`get(m, (0, 0))` still returns `Scalar(5)`. -/
theorem C5_scalar_add_scenario :
    ∃ m0 m1 m2,
      rb_zeros 2 2 0 = .ok m0 ∧
      rb_aset m0 0 0 ⟨5, 0, 0, 0⟩ = .ok m1 ∧
      rb_add m1 (.num 3) = .ok m2 ∧
      (m2.data 0, m2.data 1, m2.data 2, m2.data 3) = (8, 3, 3, 3) ∧
      (m1.data 0, m1.data 1, m1.data 2, m1.data 3) = (5, 0, 0, 0) ∧
      rb_aref m1 0 0 = .ok ⟨5, 0, 0, 0⟩ :=
  ⟨_, _, _, rfl, rfl, rfl, by decide, by decide, rfl⟩

/-- C6: `absdiff` with an operand that is neither a matrix nor a
scalar-tuple (a plain number or any other object) fails with `TypeError`;
with a scalar-tuple operand, or a matrix operand of the same shape and type,
it returns a new matrix.  (The C code deletes the pre-allocated output
before raising — a memory-management step with no observable counterpart in
this functional model.) -/
theorem C6_absdiff_dispatch (self m : Mat) (s : Scalar) (x : Int) (d : Depth)
    (hd : decodeDepth self.depthCode = some d)
    (hm : self.sameShapeType m) :
    rb_absdiff self (.num x) =
      .error (.typeError "no implicit conversion into Cv::Mat or Cv::Scalar") ∧
    rb_absdiff self .otherObject =
      .error (.typeError "no implicit conversion into Cv::Mat or Cv::Scalar") ∧
    (∃ r, rb_absdiff self (.scalar s) = .ok r) ∧
    (∃ r, rb_absdiff self (.mat m) = .ok r) := by
  refine ⟨rfl, rfl, ?_, ?_⟩
  · refine ⟨{ self with
        data := fun off => d.saturate ((self.data off - s.get (chanOf self off)).natAbs) }, ?_⟩
    simp [rb_absdiff, cvAbsdiffMatScalar, hd]
  · refine ⟨{ self with
        data := fun off => d.saturate ((self.data off - m.data off).natAbs) }, ?_⟩
    simp [rb_absdiff, cvAbsdiffMatMat, hm, hd]

/-- C6 witness: on the concrete `u8` matrix, `absdiff` rejects the number 9
and the non-converting object with `TypeError`, and succeeds on a scalar
tuple and on a same-shaped matrix. -/
theorem C6_absdiff_witness :
    rb_absdiff exU8Row (.num 9) =
      .error (.typeError "no implicit conversion into Cv::Mat or Cv::Scalar") ∧
    rb_absdiff exU8Row .otherObject =
      .error (.typeError "no implicit conversion into Cv::Mat or Cv::Scalar") ∧
    (∃ r, rb_absdiff exU8Row (.scalar ⟨1, 2, 3, 4⟩) = .ok r) ∧
    (∃ r, rb_absdiff exU8Row (.mat exU8Row) = .ok r) :=
  C6_absdiff_dispatch exU8Row exU8Row ⟨1, 2, 3, 4⟩ 9 .u8 rfl (by decide)

/-- C7: element `get` and `set` fail with the unsupported-depth error
(`Invalid depth`, the `default:` switch branch) exactly when the handle's
depth tag decodes to none of the seven supported kinds; for every supported
depth the dispatch selects the matching branch — `get` succeeds, and `set`
stores each of the `channels` tuple components narrowed by that depth's
cast. -/
theorem C7_element_access_depth_dispatch (m : Mat) (i j : Int) (v : Scalar) :
    (decodeDepth m.depthCode = none →
      rb_aref m i j = .error (.standardError "Invalid depth") ∧
      rb_aset m i j v = .error (.standardError "Invalid depth")) ∧
    (∀ d, decodeDepth m.depthCode = some d →
      (∃ s, rb_aref m i j = .ok s) ∧
      (∃ m2, rb_aset m i j v = .ok m2 ∧
        ∀ k, k < m.channels →
          m2.data (cellBase m i j + Int.ofNat k) = d.narrow (v.get k))) := by
  constructor
  · intro hnone
    exact ⟨by simp [rb_aref, hnone], by simp [rb_aset, hnone]⟩
  · intro d hd
    refine ⟨⟨⟨m.data (cellBase m i j), m.data (cellBase m i j + 1),
              m.data (cellBase m i j + 2), m.data (cellBase m i j + 3)⟩, ?_⟩,
            ⟨{ m with data := setChannels m.data (cellBase m i j) d v m.channels }, ?_, ?_⟩⟩
    · simp [rb_aref, hd]
    · simp [rb_aset, hd]
    · intro k hk
      exact setChannels_at m.data (cellBase m i j) d v m.channels k hk

/-- C7 witness: the depth code 9 makes `get` and `set` raise the
unsupported-depth error at `(0, 0)`, and on the supported `u8` matrix `set`
stores the narrowed component (`300` becomes `44`) and `get` succeeds. -/
theorem C7_element_access_witness :
    rb_aref exBadDepth 0 0 = .error (.standardError "Invalid depth") ∧
    rb_aset exBadDepth 0 0 ⟨1, 0, 0, 0⟩ = .error (.standardError "Invalid depth") ∧
    (∃ s, rb_aref exU8Row 0 0 = .ok s) ∧
    (∃ m2, rb_aset exU8Row 0 0 ⟨300, 0, 0, 0⟩ = .ok m2 ∧
      ∀ k, k < exU8Row.channels →
        m2.data (cellBase exU8Row 0 0 + Int.ofNat k) =
          Depth.u8.narrow ((⟨300, 0, 0, 0⟩ : Scalar).get k)) :=
  ⟨((C7_element_access_depth_dispatch exBadDepth 0 0 ⟨1, 0, 0, 0⟩).1 rfl).1,
   ((C7_element_access_depth_dispatch exBadDepth 0 0 ⟨1, 0, 0, 0⟩).1 rfl).2,
   ((C7_element_access_depth_dispatch exU8Row 0 0 ⟨300, 0, 0, 0⟩).2 .u8 rfl).1,
   ((C7_element_access_depth_dispatch exU8Row 0 0 ⟨300, 0, 0, 0⟩).2 .u8 rfl).2⟩

/-- C8: `threshold` returns the pair `(output, computed optimal threshold)`
exactly when the threshold-type argument has the `THRESH_OTSU` or
`THRESH_TRIANGLE` bit set, and the output matrix alone otherwise; whatever
the kernel produced, the two flag bits alone decide the shape. -/
theorem C8_threshold_return_shape
    (kernel : Mat → Int → Int → Int → Except CvError (Mat × Int))
    (self : Mat) (threshold maxValue thresholdType : Int) (dst : Mat) (optimal : Int)
    (hk : kernel self threshold maxValue thresholdType = .ok (dst, optimal)) :
    (thresholdType.land THRESH_OTSU ≠ 0 ∨ thresholdType.land THRESH_TRIANGLE ≠ 0 →
      rb_threshold kernel self threshold maxValue thresholdType = .ok (.pair dst optimal)) ∧
    (thresholdType.land THRESH_OTSU = 0 ∧ thresholdType.land THRESH_TRIANGLE = 0 →
      rb_threshold kernel self threshold maxValue thresholdType = .ok (.single dst)) := by
  unfold rb_threshold
  rw [hk]
  dsimp only
  constructor
  · intro h
    rw [if_pos h]
  · intro h
    rw [if_neg (by simp [h.1, h.2])]

/-- A threshold kernel outcome for the C8 witness. -/
def c8kernel : Mat → Int → Int → Int → Except CvError (Mat × Int) :=
  fun _ _ _ _ => .ok (exU8Row, 0)

/-- C8 witness: with a concrete kernel outcome, type `THRESH_OTSU = 8` gives
the pair and type `THRESH_BINARY = 0` the matrix alone. -/
theorem C8_threshold_witness :
    rb_threshold c8kernel exU8Row 100 255 8 = .ok (.pair exU8Row 0) ∧
    rb_threshold c8kernel exU8Row 100 255 0 = .ok (.single exU8Row) :=
  ⟨(C8_threshold_return_shape c8kernel exU8Row 100 255 8 exU8Row 0 rfl).1 (by decide),
   (C8_threshold_return_shape c8kernel exU8Row 100 255 0 exU8Row 0 rfl).2 (by decide)⟩

/-- C9: when `split` succeeds it returns one single-channel matrix per
channel — the result list's length is the receiver's channel count, every
entry is single-channel, and the `i`-th entry is the channel-`i` plane. -/
theorem C9_split_one_per_channel (m : Mat) (planes : List Mat)
    (h : rb_split m = .ok planes) :
    planes.length = m.channels ∧
    (∀ p, p ∈ planes → p.channels = 1) ∧
    (∀ i, i < m.channels → planes.get? i = some (cvSplitPlane m i)) := by
  unfold rb_split at h
  cases hdec : decodeDepth m.depthCode with
  | none => rw [hdec] at h; exact absurd h (by simp)
  | some d =>
    rw [hdec] at h
    have hplanes : planes = (List.range m.channels).map (cvSplitPlane m) := by
      injection h with h2
      exact h2.symm
    subst hplanes
    refine ⟨by simp, ?_, ?_⟩
    · intro p hp
      rcases List.mem_map.mp hp with ⟨i, _, rfl⟩
      rfl
    · intro i hi
      refine (List.get?_map (cvSplitPlane m) (List.range m.channels) i).trans ?_
      rw [List.get?_range hi]
      rfl

/-- C9 witness: splitting the 1×1 three-channel matrix yields three
single-channel planes. -/
theorem C9_split_witness :
    ((List.range 3).map (cvSplitPlane exRGB)).length = exRGB.channels ∧
    (∀ p, p ∈ (List.range 3).map (cvSplitPlane exRGB) → p.channels = 1) ∧
    (∀ i, i < exRGB.channels →
      ((List.range 3).map (cvSplitPlane exRGB)).get? i = some (cvSplitPlane exRGB i)) :=
  C9_split_one_per_channel exRGB ((List.range 3).map (cvSplitPlane exRGB)) rfl

/-- C10: the two-argument construction form defaults the element type to
`CV_8UC1` — depth code 0 (8-bit unsigned) and a single channel, not the
three channels the in-source example comment advertises. -/
theorem C10_default_type_u8c1 :
    (rb_initialize_numeric 3 4 none).map (fun m => (m.depthCode, m.channels)) = .ok (0, 1) ∧
    decodeDepth 0 = some Depth.u8 :=
  ⟨rfl, rfl⟩
